import Mathlib

/-!
# Shallow embedding of the ReverDNS resolution engine

This file models the core of the ReverDNS repository in Lean 4:

* `src/dns/resolver.rs` — `LookupResult`, `LookupStatus`, `DnsResolver`,
  the retry/backoff loop of `DnsResolver::lookup`, and the configuration
  selection of `DnsResolver::with_resolvers`;
* `src/output/json.rs` — `format_json` and its metadata block;
* `src/main.rs` — the rate-limit interval computation, the per-item worker
  pipeline of the dispatch loop, and the `filter_map` collection that drops
  per-item errors.

Modelling conventions:

* The underlying DNS library call
  `tokio::time::timeout(self.timeout, self.resolver.reverse_lookup(ip_addr))`
  is abstracted as a *trace*: a function `Nat → AttemptOutcome` giving, for
  each attempt number, whether that attempt succeeded (with the list of
  hostnames the returned record set yields), failed with an error whose
  `to_string()` is a given string, or hit the timeout wrapper.
* `IpAddr::from_str` parsing is abstracted as a boolean input (`ipParses`
  for the lookup target, `ipParse : String → Bool` for resolver IPs): the
  control flow of the modelled code depends only on whether parsing
  succeeds, never on the parsed value (the parsed address is consumed only
  by the abstracted network call).
* Wall-clock latency (`start.elapsed()`) is not modelled; the
  `latency_ms` field is fixed to 0.  No claim concerns its value.
* `f64` arithmetic in the rate-limit interval (`1.0 / rate_limit as f64`)
  is modelled with exact rationals.
-/

namespace ReverDNS

/-- Rust `str::contains(pat)`: `pat` occurs as a contiguous substring of
`s` (the empty pattern is contained in every string). -/
def listIsPrefix : List Char → List Char → Bool
  | [], _ => true
  | _ :: _, [] => false
  | a :: as, b :: bs => a == b && listIsPrefix as bs

/-- Check `pat` against every suffix of the haystack. -/
def containsAux (pat : List Char) : List Char → Bool
  | [] => listIsPrefix pat []
  | c :: cs => listIsPrefix pat (c :: cs) || containsAux pat cs

/-- `strContains s pat` models Rust `s.contains(pat)`. -/
def strContains (s pat : String) : Bool :=
  containsAux pat.toList s.toList

/-- Rust `str::trim_end_matches('.')`: strip every trailing `'.'`. -/
def trimTrailingDots (s : String) : String :=
  ⟨(s.toList.reverse.dropWhile (fun c => c == '.')).reverse⟩

/-- `LookupStatus` from `src/dns/resolver.rs`. -/
inductive LookupStatus where
  | Success
  | Failed
  | Timeout
  | RateLimited
  deriving DecidableEq, Repr

/-- `LookupStatus::to_string()` via the `Display` impl in
`src/dns/resolver.rs`. -/
def LookupStatus.toDisplay : LookupStatus → String
  | .Success => "success"
  | .Failed => "failed"
  | .Timeout => "timeout"
  | .RateLimited => "rate_limited"

/-- `LookupResult` from `src/dns/resolver.rs`. -/
structure LookupResult where
  ip : String
  hostname : Option String
  status : LookupStatus
  ttl : Option Nat
  latency_ms : Nat
  resolver : String
  error : Option String
  deriving DecidableEq, Repr

/-- `ReverDNSError` from `src/error.rs` (structured payloads such as
`io::Error` are carried as their message strings). -/
inductive ReverDNSError where
  | ResolutionFailed (msg : String)
  | InvalidIpAddress (ip : String)
  | Timeout
  | NetworkError (msg : String)
  | IoError (msg : String)
  | ConfigError (msg : String)
  | SerializationError (msg : String)
  | CsvError (msg : String)
  | InvalidResolver (ip : String)
  | RateLimitExceeded
  | RetryLimitExceeded
  | DoHError (msg : String)
  | InvalidFormat (msg : String)
  | FileNotFound (path : String)
  | PermissionDenied (msg : String)
  | InternalError (msg : String)
  | Unknown (msg : String)
  deriving DecidableEq, Repr

/-- `trust_dns_resolver::config::Protocol`, restricted to the two variants
the repository constructs. -/
inductive Protocol where
  | Udp
  | Https
  deriving DecidableEq, Repr

/-- The fields of `trust_dns_resolver::config::NameServerConfig` that the
repository sets (`bind_addr` is always `None` and omitted). -/
structure NameServerConfig where
  addr : String
  port : Nat
  protocol : Protocol
  tls_dns_name : Option String
  trust_negative_responses : Bool
  deriving DecidableEq, Repr

/-- `DnsResolver` from `src/dns/resolver.rs`; the opaque
`TokioAsyncResolver` is represented by the `NameServerConfig` list it was
built from. -/
structure DnsResolver where
  config : List NameServerConfig
  timeout : Nat
  retry_count : Nat
  retry_backoff : Nat
  resolver_names : String
  deriving DecidableEq, Repr

/-- Outcome of one abstracted call to
`tokio::time::timeout(self.timeout, self.resolver.reverse_lookup(ip_addr))`:
`ok hostnames` is `Ok(Ok(lookup_result))` where `hostnames` lists
`lookup_result.iter()`'s entries as UTF-8 strings, `err msg` is
`Ok(Err(e))` with `e.to_string() = msg`, and `timeout` is `Err(_)` from the
timeout wrapper. -/
inductive AttemptOutcome where
  | ok (hostnames : List String)
  | err (msg : String)
  | timeout
  deriving DecidableEq

/-- The non-retryable classification inside `DnsResolver::lookup`:
`err_str.contains("NXDOMAIN") || err_str.contains("NoRecordsFound")`. -/
def isHardError (msg : String) : Bool :=
  strContains msg "NXDOMAIN" || strContains msg "NoRecordsFound"

/-- Observable events of the retry loop: `sleep ms` is
`tokio::time::sleep(self.retry_backoff * attempt)`, `attempt n` is one
issued resolution attempt. -/
inductive LookupEvent where
  | sleep (ms : Nat)
  | attempt (n : Nat)
  deriving DecidableEq, Repr

/-- How the `for attempt in 0..=self.retry_count` loop was left:
`success` via the `return` in the `Ok(Ok(..))` arm, `fallthrough le` by
`break` or by exhausting the range, with `last_error = le`. -/
inductive LoopExit where
  | success (hostnames : List String)
  | fallthrough (lastError : Option String)
  deriving DecidableEq

/-- The body of the retry loop in `DnsResolver::lookup`
(`src/dns/resolver.rs:190-240`), run over the list of remaining attempt
numbers with the current `last_error`; returns the emitted events and the
loop exit. -/
def runLoop (backoff : Nat) (trace : Nat → AttemptOutcome) :
    List Nat → Option String → List LookupEvent × LoopExit
  | [], lastError => ([], .fallthrough lastError)
  | n :: rest, lastError =>
    let pre : List LookupEvent := if n = 0 then [] else [.sleep (backoff * n)]
    match trace n with
    | .ok hs => (pre ++ [.attempt n], .success hs)
    | .err msg =>
      if isHardError msg then
        (pre ++ [.attempt n], .fallthrough (some msg))
      else
        let r := runLoop backoff trace rest (some msg)
        (pre ++ .attempt n :: r.1, r.2)
    | .timeout =>
      let r := runLoop backoff trace rest (some "Timeout")
      (pre ++ .attempt n :: r.1, r.2)

/-- `DnsResolver::lookup` (`src/dns/resolver.rs:178-260`), paired with the
event list of its retry loop.  `ipParses` abstracts
`IpAddr::from_str(ip).is_ok()`. -/
def lookupRun (res : DnsResolver) (trace : Nat → AttemptOutcome)
    (ip : String) (ipParses : Bool) :
    List LookupEvent × Except ReverDNSError LookupResult :=
  if ipParses then
    let r := runLoop res.retry_backoff trace (List.range (res.retry_count + 1)) none
    match r.2 with
    | .success hs =>
      (r.1, .ok
        { ip := ip
          hostname := (hs.head?).map trimTrailingDots
          status := .Success
          ttl := none
          latency_ms := 0
          resolver := res.resolver_names
          error := none })
    | .fallthrough lastError =>
      let errorMsg := lastError.getD "Unknown error"
      (r.1, .ok
        { ip := ip
          hostname := none
          status := if strContains errorMsg "Timeout" then .Timeout else .Failed
          ttl := none
          latency_ms := 0
          resolver := res.resolver_names
          error := some errorMsg })
  else
    ([], .error (.InvalidIpAddress ip))

/-- The value returned by `DnsResolver::lookup`. -/
def lookup (res : DnsResolver) (trace : Nat → AttemptOutcome)
    (ip : String) (ipParses : Bool) : Except ReverDNSError LookupResult :=
  (lookupRun res trace ip ipParses).2

/-- The retry-loop events of one call to `DnsResolver::lookup`. -/
def lookupEvents (res : DnsResolver) (trace : Nat → AttemptOutcome)
    (ip : String) (ipParses : Bool) : List LookupEvent :=
  (lookupRun res trace ip ipParses).1

/-- Whether an event is an issued resolution attempt. -/
def LookupEvent.isAttempt : LookupEvent → Bool
  | .attempt _ => true
  | .sleep _ => false

/-- Number of resolution attempts issued by one call to
`DnsResolver::lookup`. -/
def lookupAttempts (res : DnsResolver) (trace : Nat → AttemptOutcome)
    (ip : String) (ipParses : Bool) : Nat :=
  ((lookupEvents res trace ip ipParses).filter LookupEvent.isAttempt).length

/-- The cloudflare DoH name server built in
`DnsResolver::with_resolvers` (`src/dns/resolver.rs:104-110`). -/
def cloudflareDoH : NameServerConfig :=
  { addr := "1.1.1.1", port := 443, protocol := .Https
    tls_dns_name := some "cloudflare-dns.com", trust_negative_responses := true }

/-- The google DoH name server (`src/dns/resolver.rs:113-119`). -/
def googleDoH : NameServerConfig :=
  { addr := "8.8.8.8", port := 443, protocol := .Https
    tls_dns_name := some "dns.google", trust_negative_responses := true }

/-- The quad9 DoH name server (`src/dns/resolver.rs:122-128`). -/
def quad9DoH : NameServerConfig :=
  { addr := "9.9.9.9", port := 5053, protocol := .Https
    tls_dns_name := some "dns.quad9.net", trust_negative_responses := true }

/-- The DoH branch of `DnsResolver::with_resolvers`
(`src/dns/resolver.rs:103-141`): substring-match the provider URL and pick
the name-server list and display name. -/
def dohSelect (provider_url : String) : List NameServerConfig × String :=
  if strContains provider_url "cloudflare" then
    ([cloudflareDoH], "cloudflare-doh")
  else if strContains provider_url "google" then
    ([googleDoH], "google-doh")
  else if strContains provider_url "quad9" then
    ([quad9DoH], "quad9-doh")
  else
    ([cloudflareDoH], "cloudflare-doh(fallback)")

/-- The custom-server branch of `DnsResolver::with_resolvers`
(`src/dns/resolver.rs:143-159`): each resolver IP string must parse
(abstracted by `ipParse`) or construction fails with `InvalidResolver`;
otherwise every IP is registered as a UDP port-53 name server. -/
def buildCustom (ipParse : String → Bool) :
    List String → Except ReverDNSError (List NameServerConfig × List String)
  | [] => .ok ([], [])
  | ip :: rest =>
    if ipParse ip then
      match buildCustom ipParse rest with
      | .error e => .error e
      | .ok (servers, names) =>
        .ok ({ addr := ip, port := 53, protocol := .Udp, tls_dns_name := none
               trust_negative_responses := true } :: servers, ip :: names)
    else
      .error (.InvalidResolver ip)

/-- `DnsResolver::with_resolvers` (`src/dns/resolver.rs:88-175`). -/
def with_resolvers (resolver_ips : List String) (ipParse : String → Bool)
    (timeout_secs retry_count retry_backoff_ms : Nat)
    (use_doh : Bool) (doh_provider : Option String) :
    Except ReverDNSError DnsResolver :=
  if use_doh then
    let provider_url := doh_provider.getD "https://cloudflare-dns.com/dns-query"
    let sel := dohSelect provider_url
    .ok { config := sel.1, timeout := timeout_secs, retry_count := retry_count
          retry_backoff := retry_backoff_ms, resolver_names := sel.2 }
  else
    match buildCustom ipParse resolver_ips with
    | .error e => .error e
    | .ok (servers, names) =>
      .ok { config := servers, timeout := timeout_secs, retry_count := retry_count
            retry_backoff := retry_backoff_ms
            resolver_names := String.intercalate "," names }

/-- `JsonResult` from `src/output/json.rs`. -/
structure JsonResult where
  ip : String
  hostname : Option String
  status : String
  ttl : Option Nat
  latency_ms : Nat
  resolver : String
  error : Option String
  timestamp : String
  deriving DecidableEq, Repr

/-- `JsonMetadata` from `src/output/json.rs` (the `f64` average is modelled
as an exact rational). -/
structure JsonMetadata where
  total_lookups : Nat
  successful : Nat
  failed : Nat
  total_time_ms : Nat
  average_latency_ms : ℚ
  deriving DecidableEq

/-- `JsonOutput` from `src/output/json.rs`. -/
structure JsonOutput where
  results : List JsonResult
  metadata : JsonMetadata
  deriving DecidableEq

/-- `format_json` (`src/output/json.rs:35-72`), up to serialization: the
`JsonOutput` value passed to `serde_json::to_string_pretty`.  `Utc::now()`
is abstracted as the parameter `now`. -/
def format_json (results : List LookupResult) (total_time_ms : Nat)
    (now : String) : JsonOutput :=
  let successful := (results.filter (fun r => r.status = .Success)).length
  let failed := results.length - successful
  let average_latency : ℚ :=
    if results.isEmpty then 0
    else ((results.map (fun r => (r.latency_ms : ℚ))).sum) / results.length
  { results := results.map (fun r =>
      { ip := r.ip, hostname := r.hostname, status := r.status.toDisplay
        ttl := r.ttl, latency_ms := r.latency_ms, resolver := r.resolver
        error := r.error, timestamp := now })
    metadata :=
      { total_lookups := results.length
        successful := successful
        failed := failed
        total_time_ms := total_time_ms
        average_latency_ms := average_latency } }

/-- The rate-limit interval computed in `run` (`src/main.rs:122-126`), in
seconds: `1.0 / rate_limit` for a positive limit, one microsecond
otherwise; `f64` arithmetic modelled as exact rationals. -/
def rate_limit_interval (rate_limit : Nat) : ℚ :=
  if rate_limit > 0 then 1 / (rate_limit : ℚ) else 1 / 1000000

/-- Observable steps of one dispatched unit of work in the concurrent
processing loop of `run` (`src/main.rs:138-151`). -/
inductive WorkerEvent where
  | sleep (seconds : ℚ)
  | doLookup (ip : String)
  | incProgress
  deriving DecidableEq

/-- The per-item closure mapped over the IP stream in `run`
(`src/main.rs:139-148`): sleep the rate-limit interval, perform the lookup,
bump the progress bar.  The sleep is inside the closure, so each concurrent
worker delays itself. -/
def workerEvents (rate_limit : Nat) (ip : String) : List WorkerEvent :=
  [.sleep (rate_limit_interval rate_limit), .doLookup ip, .incProgress]

/-- The dispatch loop as the per-worker event sequences: one independent
sequence per input IP (`buffer_unordered` only bounds how many run at
once). -/
def dispatchWorkers (rate_limit : Nat) (ips : List String) :
    List (List WorkerEvent) :=
  ips.map (workerEvents rate_limit)

/-- The unwrap step of `run` (`src/main.rs:156-165`): keep `Ok` results,
drop every `Err` (with a logged warning). -/
def collectResults (rs : List (Except ReverDNSError LookupResult)) :
    List LookupResult :=
  rs.filterMap (fun r => match r with | .ok v => some v | .error _ => none)

/-- One item of the dispatch loop: the input string, whether it parses as
an IP, and the abstract trace of its resolution attempts. -/
structure DispatchItem where
  ip : String
  ipParses : Bool
  trace : Nat → AttemptOutcome

/-- The dispatch loop of `run` composed with the unwrap step: look every
item up, then drop the per-item errors. -/
def runDispatch (res : DnsResolver) (items : List DispatchItem) :
    List LookupResult :=
  collectResults (items.map (fun it => lookup res it.trace it.ip it.ipParses))

/-- Outcomes on which the loop keeps retrying: a timeout, or an error whose
text matches neither hard-failure marker. -/
def isRetryableOutcome : AttemptOutcome → Bool
  | .ok _ => false
  | .err m => !(isHardError m)
  | .timeout => true

/-- The events one loop iteration for attempt `n` contributes: the backoff
sleep (for `n > 0` only) followed by the attempt itself. -/
def stepEvents (backoff n : Nat) : List LookupEvent :=
  if n = 0 then [.attempt 0] else [.sleep (backoff * n), .attempt n]

/-- A concrete resolver value for evaluating the model: retry budget `rc`,
5 s timeout, 100 ms backoff base. -/
def mkRes (rc : Nat) : DnsResolver :=
  { config := [], timeout := 5, retry_count := rc, retry_backoff := 100
    resolver_names := "test" }

/-- Trace whose every attempt succeeds with an empty record set. -/
def traceOkEmpty : Nat → AttemptOutcome := fun _ => .ok []

/-- Trace whose every attempt succeeds with one PTR hostname. -/
def traceOkGoogle : Nat → AttemptOutcome := fun _ => .ok ["dns.google."]

/-- Trace whose every attempt fails with a retryable connection error. -/
def traceRefused : Nat → AttemptOutcome := fun _ => .err "connection refused"

/-- Trace whose every attempt fails hard with plain `NXDOMAIN` text. -/
def traceHard : Nat → AttemptOutcome := fun _ => .err "NXDOMAIN"

/-- Trace whose every attempt fails hard with an error text that also
contains the `Timeout` marker. -/
def traceHardTimeout : Nat → AttemptOutcome := fun _ => .err "NXDOMAIN Timeout"

/-- The result a lookup on `traceOkEmpty` produces. -/
def resultOkEmpty : LookupResult :=
  { ip := "1.2.3.4", hostname := none, status := .Success, ttl := none
    latency_ms := 0, resolver := "test", error := none }

/-- The result a lookup on `traceOkGoogle` produces. -/
def resultOkGoogle : LookupResult :=
  { ip := "8.8.8.8", hostname := some "dns.google", status := .Success
    ttl := none, latency_ms := 0, resolver := "test", error := none }

/-- The result a lookup on `traceHardTimeout` produces. -/
def resultHardTimeout : LookupResult :=
  { ip := "1.2.3.4", hostname := none, status := .Timeout, ttl := none
    latency_ms := 0, resolver := "test", error := some "NXDOMAIN Timeout" }

theorem pre_append_attempt (backoff n : Nat) :
    (if n = 0 then ([] : List LookupEvent) else [.sleep (backoff * n)]) ++
      [.attempt n] = stepEvents backoff n := by
  by_cases h : n = 0 <;> simp [stepEvents, h]

/-- A `success` exit names a hostname list delivered by some attempt in the
processed range. -/
theorem runLoop_success_mem (backoff : Nat) (trace : Nat → AttemptOutcome) :
    ∀ (l : List Nat) (le : Option String) (hs : List String),
      (runLoop backoff trace l le).2 = .success hs → ∃ n ∈ l, trace n = .ok hs := by
  intro l
  induction l with
  | nil =>
    intro le hs h
    simp [runLoop] at h
  | cons n rest ih =>
    intro le hs h
    cases htr : trace n with
    | ok hs2 =>
      simp only [runLoop, htr] at h
      refine ⟨n, by simp, ?_⟩
      rw [htr]
      exact congrArg AttemptOutcome.ok (LoopExit.success.inj h)
    | err msg =>
      by_cases hh : isHardError msg
      · simp [runLoop, htr, hh] at h
      · simp only [runLoop, htr, hh, Bool.false_eq_true, if_false] at h
        obtain ⟨m, hm, hm2⟩ := ih (some msg) hs h
        exact ⟨m, List.mem_cons_of_mem _ hm, hm2⟩
    | timeout =>
      simp only [runLoop, htr] at h
      obtain ⟨m, hm, hm2⟩ := ih (some "Timeout") hs h
      exact ⟨m, List.mem_cons_of_mem _ hm, hm2⟩

/-- The events of the retry loop are, for some number `j` of iterations
actually executed, exactly the concatenation of the per-iteration events of
the first `j` attempt numbers; at least one iteration runs when the range
is non-empty. -/
theorem runLoop_events_shape (backoff : Nat) (trace : Nat → AttemptOutcome) :
    ∀ (l : List Nat) (le : Option String),
      ∃ j, j ≤ l.length ∧ (l ≠ [] → 1 ≤ j) ∧
        (runLoop backoff trace l le).1 =
          ((l.take j).map (stepEvents backoff)).flatten := by
  intro l
  induction l with
  | nil =>
    intro le
    exact ⟨0, by simp, by simp, by simp [runLoop]⟩
  | cons n rest ih =>
    intro le
    cases htr : trace n with
    | ok hs =>
      refine ⟨1, by simp, fun _ => le_refl 1, ?_⟩
      simp [runLoop, htr, pre_append_attempt]
    | err msg =>
      by_cases hh : isHardError msg
      · refine ⟨1, by simp, fun _ => le_refl 1, ?_⟩
        simp [runLoop, htr, hh, pre_append_attempt]
      · obtain ⟨j, hj, _, hev⟩ := ih (some msg)
        refine ⟨j + 1, by simpa using hj, fun _ => by omega, ?_⟩
        simp only [runLoop, htr, hh, Bool.false_eq_true, if_false]
        rw [List.take_succ_cons, List.map_cons, List.flatten_cons,
          ← pre_append_attempt backoff n, hev]
        simp
    | timeout =>
      obtain ⟨j, hj, _, hev⟩ := ih (some "Timeout")
      refine ⟨j + 1, by simpa using hj, fun _ => by omega, ?_⟩
      simp only [runLoop, htr]
      rw [List.take_succ_cons, List.map_cons, List.flatten_cons,
        ← pre_append_attempt backoff n, hev]
      simp

/-- Each iteration's event list holds exactly one attempt event. -/
theorem stepEvents_attempt_count (backoff n : Nat) :
    ((stepEvents backoff n).filter LookupEvent.isAttempt).length = 1 := by
  by_cases h : n = 0 <;> simp [stepEvents, h, LookupEvent.isAttempt]

/-- When every attempt in the range fails retryably, the loop issues one
attempt per range element and falls through. -/
theorem runLoop_all_retryable (backoff : Nat) (trace : Nat → AttemptOutcome) :
    ∀ (l : List Nat) (le : Option String),
      (∀ n ∈ l, isRetryableOutcome (trace n) = true) →
      (((runLoop backoff trace l le).1.filter LookupEvent.isAttempt).length
          = l.length) ∧
      ∃ le2, (runLoop backoff trace l le).2 = .fallthrough le2 := by
  intro l
  induction l with
  | nil =>
    intro le _
    exact ⟨by simp [runLoop], le, by simp [runLoop]⟩
  | cons n rest ih =>
    intro le hall
    have hn : isRetryableOutcome (trace n) = true := hall n (by simp)
    have hrest : ∀ m ∈ rest, isRetryableOutcome (trace m) = true :=
      fun m hm => hall m (List.mem_cons_of_mem _ hm)
    cases htr : trace n with
    | ok hs =>
      rw [htr] at hn
      simp [isRetryableOutcome] at hn
    | err msg =>
      rw [htr] at hn
      have hh : isHardError msg = false := by
        simpa [isRetryableOutcome] using hn
      obtain ⟨hcount, le2, hexit⟩ := ih (some msg) hrest
      constructor
      · simp only [runLoop, htr, hh, Bool.false_eq_true, if_false]
        by_cases h0 : n = 0 <;>
          simp [h0, List.filter_append, List.filter_cons,
            LookupEvent.isAttempt, hcount]
      · refine ⟨le2, ?_⟩
        simp only [runLoop, htr, hh, Bool.false_eq_true, if_false]
        exact hexit
    | timeout =>
      obtain ⟨hcount, le2, hexit⟩ := ih (some "Timeout") hrest
      constructor
      · simp only [runLoop, htr]
        by_cases h0 : n = 0 <;>
          simp [h0, List.filter_append, List.filter_cons,
            LookupEvent.isAttempt, hcount]
      · refine ⟨le2, ?_⟩
        simp only [runLoop, htr]
        exact hexit

/-- The backoff-sleep prefix of a loop iteration contributes no attempt
events. -/
theorem filter_attempt_pre (backoff a : Nat) (xs : List LookupEvent) :
    ((if a = 0 then ([] : List LookupEvent) else [.sleep (backoff * a)]) ++
        xs).filter LookupEvent.isAttempt = xs.filter LookupEvent.isAttempt := by
  by_cases h : a = 0 <;> simp [h, LookupEvent.isAttempt]

/-- When the first `j` attempts of the range fail retryably and attempt
`a + j` fails with a hard error, the loop issues exactly `j + 1` attempts
and falls through carrying that error's text. -/
theorem runLoop_hard_stop (backoff : Nat) (trace : Nat → AttemptOutcome) :
    ∀ (j a cnt : Nat) (le : Option String) (m : String),
      j < cnt → trace (a + j) = .err m → isHardError m = true →
      (∀ i, i < j → isRetryableOutcome (trace (a + i)) = true) →
      (((runLoop backoff trace (List.range' a cnt) le).1.filter
          LookupEvent.isAttempt).length = j + 1) ∧
      (runLoop backoff trace (List.range' a cnt) le).2 =
        .fallthrough (some m) := by
  intro j
  induction j with
  | zero =>
    intro a cnt le m hcnt htr hhard _
    obtain ⟨c, rfl⟩ : ∃ c, cnt = c + 1 := ⟨cnt - 1, by omega⟩
    rw [Nat.add_zero] at htr
    rw [List.range'_succ]
    constructor
    · simp only [runLoop, htr, hhard, if_true]
      rw [filter_attempt_pre]
      simp [List.filter_cons, LookupEvent.isAttempt]
    · simp only [runLoop, htr, hhard, if_true]
  | succ j ih =>
    intro a cnt le m hcnt htr hhard hpre
    obtain ⟨c, rfl⟩ : ∃ c, cnt = c + 1 := ⟨cnt - 1, by omega⟩
    have hshift : a + 1 + j = a + (j + 1) := by omega
    have htr2 : trace (a + 1 + j) = .err m := by rw [hshift]; exact htr
    have hpre2 : ∀ i, i < j → isRetryableOutcome (trace (a + 1 + i)) = true := by
      intro i hi
      have : a + 1 + i = a + (i + 1) := by omega
      rw [this]
      exact hpre (i + 1) (by omega)
    have hcnt2 : j < c := by omega
    have hhead : isRetryableOutcome (trace a) = true := by
      have := hpre 0 (by omega)
      simpa using this
    have hrec := fun le2 => ih (a + 1) c le2 m hcnt2 htr2 hhard hpre2
    rw [List.range'_succ]
    cases htra : trace a with
    | ok hs =>
      rw [htra] at hhead
      simp [isRetryableOutcome] at hhead
    | err msg =>
      rw [htra] at hhead
      have hsoft : isHardError msg = false := by
        simpa [isRetryableOutcome] using hhead
      constructor
      · simp only [runLoop, htra, hsoft, Bool.false_eq_true, if_false]
        rw [filter_attempt_pre]
        simp [List.filter_cons, LookupEvent.isAttempt, (hrec (some msg)).1]
      · simp only [runLoop, htra, hsoft, Bool.false_eq_true, if_false]
        exact (hrec (some msg)).2
    | timeout =>
      constructor
      · simp only [runLoop, htra]
        rw [filter_attempt_pre]
        simp [List.filter_cons, LookupEvent.isAttempt, (hrec (some "Timeout")).1]
      · simp only [runLoop, htra]
        exact (hrec (some "Timeout")).2

/-- The retry-loop events of a lookup on a parseable IP are the events of
`runLoop` over the attempt range, whichever way the loop exited. -/
theorem lookupEvents_true (res : DnsResolver) (trace : Nat → AttemptOutcome)
    (ip : String) :
    lookupEvents res trace ip true =
      (runLoop res.retry_backoff trace
        (List.range (res.retry_count + 1)) none).1 := by
  unfold lookupEvents lookupRun
  rw [if_pos rfl]
  cases h : (runLoop res.retry_backoff trace
      (List.range (res.retry_count + 1)) none).2 <;> simp [h]

/-- The result `DnsResolver::lookup` returns when the loop exits through the
success `return`. -/
theorem lookup_success (res : DnsResolver) (trace : Nat → AttemptOutcome)
    (ip : String) (hs : List String)
    (h : (runLoop res.retry_backoff trace
        (List.range (res.retry_count + 1)) none).2 = LoopExit.success hs) :
    lookup res trace ip true = Except.ok
      { ip := ip, hostname := hs.head?.map trimTrailingDots
        status := .Success, ttl := none, latency_ms := 0
        resolver := res.resolver_names, error := none } := by
  simp [lookup, lookupRun, h]

/-- The result `DnsResolver::lookup` returns when the loop falls through
with `last_error = le`. -/
theorem lookup_fallthrough (res : DnsResolver) (trace : Nat → AttemptOutcome)
    (ip : String) (le : Option String)
    (h : (runLoop res.retry_backoff trace
        (List.range (res.retry_count + 1)) none).2 = LoopExit.fallthrough le) :
    lookup res trace ip true = Except.ok
      { ip := ip, hostname := none
        status := if strContains (le.getD "Unknown error") "Timeout"
          then .Timeout else .Failed
        ttl := none, latency_ms := 0, resolver := res.resolver_names
        error := some (le.getD "Unknown error") } := by
  simp [lookup, lookupRun, h]

/-- A lookup on a parseable IP always returns `Ok`. -/
theorem lookup_true_ok (res : DnsResolver) (trace : Nat → AttemptOutcome)
    (ip : String) : ∃ r, lookup res trace ip true = Except.ok r := by
  cases h : (runLoop res.retry_backoff trace
      (List.range (res.retry_count + 1)) none).2 with
  | success hs => exact ⟨_, lookup_success res trace ip hs h⟩
  | fallthrough le => exact ⟨_, lookup_fallthrough res trace ip le h⟩

/-- Each branch of `dohSelect` registers exactly one name server. -/
theorem dohSelect_config_length (url : String) :
    (dohSelect url).1.length = 1 := by
  simp only [dohSelect]
  split
  · rfl
  · split
    · rfl
    · split
      · rfl
      · rfl

/-- C1 counterexample: when an attempt succeeds but the returned record set
yields no hostname (`lookup_result.iter().next()` is `None`), the produced
`LookupResult` has `status = Success` with `hostname = None`, so
`hostname.is_some ⇔ status == Success` fails as stated. -/
theorem C1_counterexample :
    ∃ r, lookup (mkRes 3) traceOkEmpty "1.2.3.4" true = Except.ok r ∧
      r.status = LookupStatus.Success ∧ r.hostname = none ∧
      r.error = none := by
  exact ⟨resultOkEmpty, by rfl, by rfl, by rfl, by rfl⟩

/-- C1 (amended): for every `LookupResult` produced by
`DnsResolver::lookup`, `error.is_some ⇔ status != Success` holds
unconditionally, `hostname.is_some → status == Success` holds
unconditionally, and the remaining direction — `status == Success` implies
`hostname.is_some` — holds provided every successful resolution attempt
delivers at least one hostname record. -/
theorem C1_lookup_invariant (res : DnsResolver) (trace : Nat → AttemptOutcome)
    (ip : String) (p : Bool) (r : LookupResult)
    (h : lookup res trace ip p = Except.ok r) :
    (r.error.isSome = true ↔ r.status ≠ LookupStatus.Success) ∧
    (r.hostname.isSome = true → r.status = LookupStatus.Success) ∧
    ((∀ n hs, trace n = AttemptOutcome.ok hs → hs ≠ []) →
      (r.status = LookupStatus.Success ↔ r.hostname.isSome = true)) := by
  cases p with
  | false => simp [lookup, lookupRun] at h
  | true =>
    cases hexit : (runLoop res.retry_backoff trace
        (List.range (res.retry_count + 1)) none).2 with
    | success hs =>
      rw [lookup_success res trace ip hs hexit] at h
      cases Except.ok.inj h
      refine ⟨by simp, fun _ => rfl, fun hne => ?_⟩
      obtain ⟨n, _, hn⟩ :=
        runLoop_success_mem res.retry_backoff trace _ none hs hexit
      have hhs : hs ≠ [] := hne n hs hn
      cases hs with
      | nil => exact absurd rfl hhs
      | cons a as => simp
    | fallthrough le =>
      rw [lookup_fallthrough res trace ip le hexit] at h
      cases Except.ok.inj h
      by_cases hc : strContains (le.getD "Unknown error") "Timeout" = true <;>
        simp [hc]

/-- Witness instantiating C1 at a trace delivering `"dns.google."`. -/
theorem C1_witness :
    ∃ r, lookup (mkRes 3) traceOkGoogle "8.8.8.8" true = Except.ok r ∧
      ((r.error.isSome = true ↔ r.status ≠ LookupStatus.Success) ∧
       (r.hostname.isSome = true → r.status = LookupStatus.Success) ∧
       ((∀ n hs, traceOkGoogle n = AttemptOutcome.ok hs → hs ≠ []) →
         (r.status = LookupStatus.Success ↔ r.hostname.isSome = true))) := by
  exact ⟨resultOkGoogle, by rfl,
    C1_lookup_invariant (mkRes 3) traceOkGoogle "8.8.8.8" true
      resultOkGoogle (by rfl)⟩

/-- C2: with retry budget `N = retry_count`, a lookup whose every attempt
fails retryably issues exactly `N + 1` attempts and returns a
`LookupResult` with terminal status `Failed` or `Timeout`. -/
theorem C2_retry_budget (res : DnsResolver) (trace : Nat → AttemptOutcome)
    (ip : String)
    (h : ∀ n, n ≤ res.retry_count → isRetryableOutcome (trace n) = true) :
    lookupAttempts res trace ip true = res.retry_count + 1 ∧
    ∃ r, lookup res trace ip true = Except.ok r ∧
      (r.status = LookupStatus.Failed ∨ r.status = LookupStatus.Timeout) := by
  have hall : ∀ n ∈ List.range (res.retry_count + 1),
      isRetryableOutcome (trace n) = true := by
    intro n hn
    exact h n (by simpa [Nat.lt_succ_iff] using List.mem_range.mp hn)
  obtain ⟨hcount, le2, hexit⟩ := runLoop_all_retryable res.retry_backoff trace
    (List.range (res.retry_count + 1)) none hall
  constructor
  · unfold lookupAttempts
    rw [lookupEvents_true, hcount, List.length_range]
  · refine ⟨_, lookup_fallthrough res trace ip le2 hexit, ?_⟩
    by_cases hc : strContains (le2.getD "Unknown error") "Timeout" = true
    · right; simp [hc]
    · left; simp [hc]

/-- Witness instantiating C2 with budget 2 and a trace of connection
errors. -/
theorem C2_witness :
    (∀ n, n ≤ (mkRes 2).retry_count →
      isRetryableOutcome (traceRefused n) = true) ∧
    (lookupAttempts (mkRes 2) traceRefused "1.1.1.1" true =
        (mkRes 2).retry_count + 1 ∧
      ∃ r, lookup (mkRes 2) traceRefused "1.1.1.1" true = Except.ok r ∧
        (r.status = LookupStatus.Failed ∨ r.status = LookupStatus.Timeout)) := by
  have h : ∀ n, n ≤ (mkRes 2).retry_count →
      isRetryableOutcome (traceRefused n) = true := fun n _ => rfl
  exact ⟨h, C2_retry_budget (mkRes 2) traceRefused "1.1.1.1" h⟩

/-- C3 counterexample: a first-attempt hard error whose text is
`"NXDOMAIN Timeout"` stops the loop after exactly 1 attempt (budget 5
unused), but the returned status is `Timeout`, not `Failed` as the claim
states, because the final status is classified by searching the last error
text for `"Timeout"`. -/
theorem C3_counterexample :
    lookupAttempts (mkRes 5) traceHardTimeout "1.2.3.4" true = 1 ∧
    ∃ r, lookup (mkRes 5) traceHardTimeout "1.2.3.4" true = Except.ok r ∧
      r.status = LookupStatus.Timeout ∧
      ¬ r.status = LookupStatus.Failed := by
  exact ⟨by rfl, resultHardTimeout, by rfl, by rfl, by decide⟩

/-- C3 (amended): a hard (non-retryable) error on attempt `k` terminates
the lookup immediately with exactly `k + 1` attempts issued, regardless of
remaining budget, recording that error text; the status is `Failed`
provided the hard error's text does not also contain `"Timeout"`, and
`Timeout` otherwise. -/
theorem C3_hard_failure (res : DnsResolver) (trace : Nat → AttemptOutcome)
    (ip : String) (k : Nat) (m : String)
    (hk : k ≤ res.retry_count) (htr : trace k = AttemptOutcome.err m)
    (hhard : isHardError m = true)
    (hpre : ∀ i, i < k → isRetryableOutcome (trace i) = true) :
    lookupAttempts res trace ip true = k + 1 ∧
    ∃ r, lookup res trace ip true = Except.ok r ∧ r.error = some m ∧
      r.status = (if strContains m "Timeout" then LookupStatus.Timeout
        else LookupStatus.Failed) := by
  obtain ⟨hcount, hexit⟩ := runLoop_hard_stop res.retry_backoff trace k 0
    (res.retry_count + 1) none m (by omega) (by simpa using htr) hhard
    (by simpa using hpre)
  rw [← List.range_eq_range'] at hcount hexit
  constructor
  · unfold lookupAttempts
    rw [lookupEvents_true, hcount]
  · exact ⟨_, lookup_fallthrough res trace ip (some m) hexit, rfl, rfl⟩

/-- Witness instantiating C3 at a first-attempt plain `NXDOMAIN` failure
with budget 5. -/
theorem C3_witness :
    ((0 : Nat) ≤ (mkRes 5).retry_count ∧
      traceHard 0 = AttemptOutcome.err "NXDOMAIN" ∧
      isHardError "NXDOMAIN" = true ∧
      (∀ i, i < 0 → isRetryableOutcome (traceHard i) = true)) ∧
    (lookupAttempts (mkRes 5) traceHard "9.9.9.9" true = 0 + 1 ∧
      ∃ r, lookup (mkRes 5) traceHard "9.9.9.9" true = Except.ok r ∧
        r.error = some "NXDOMAIN" ∧
        r.status = (if strContains "NXDOMAIN" "Timeout" then
          LookupStatus.Timeout else LookupStatus.Failed)) := by
  refine ⟨⟨by omega, rfl, rfl, fun i hi => absurd hi (by omega)⟩, ?_⟩
  exact C3_hard_failure (mkRes 5) traceHard "9.9.9.9" 0 "NXDOMAIN"
    (by omega) rfl rfl (fun i hi => absurd hi (by omega))

/-- C4: an input string that does not parse as an IP address makes
`DnsResolver::lookup` return the `InvalidIpAddress` error with zero
resolution attempts issued, and the dispatch loop's collection step drops
such an error item instead of appending a `Failed` record. -/
theorem C4_invalid_input (res : DnsResolver) (trace : Nat → AttemptOutcome)
    (ip : String) (pre post : List (Except ReverDNSError LookupResult)) :
    lookup res trace ip false =
      Except.error (ReverDNSError.InvalidIpAddress ip) ∧
    lookupAttempts res trace ip false = 0 ∧
    collectResults (pre ++ lookup res trace ip false :: post) =
      collectResults pre ++ collectResults post := by
  refine ⟨rfl, rfl, ?_⟩
  simp [collectResults, List.filterMap_append, List.filterMap_cons,
    lookup, lookupRun]

/-- C5: with DoH enabled, resolver construction selects the provider by
case-sensitive substring matching on the URL, in the chain's order: a
cloudflare-token URL gives 1.1.1.1:443 with TLS name `cloudflare-dns.com`,
a google-token URL gives 8.8.8.8:443 with `dns.google`, a quad9-token URL
gives 9.9.9.9:5053 with `dns.quad9.net`, and any other URL falls back to
the cloudflare configuration with a display name recording the
fallback. -/
theorem C5_doh_selection (ips : List String) (parse : String → Bool)
    (t rc b : Nat) (url : String) :
    (strContains url "cloudflare" = true →
      with_resolvers ips parse t rc b true (some url) = Except.ok
        { config := [cloudflareDoH], timeout := t, retry_count := rc
          retry_backoff := b, resolver_names := "cloudflare-doh" }) ∧
    (strContains url "cloudflare" = false → strContains url "google" = true →
      with_resolvers ips parse t rc b true (some url) = Except.ok
        { config := [googleDoH], timeout := t, retry_count := rc
          retry_backoff := b, resolver_names := "google-doh" }) ∧
    (strContains url "cloudflare" = false → strContains url "google" = false →
      strContains url "quad9" = true →
      with_resolvers ips parse t rc b true (some url) = Except.ok
        { config := [quad9DoH], timeout := t, retry_count := rc
          retry_backoff := b, resolver_names := "quad9-doh" }) ∧
    (strContains url "cloudflare" = false → strContains url "google" = false →
      strContains url "quad9" = false →
      with_resolvers ips parse t rc b true (some url) = Except.ok
        { config := [cloudflareDoH], timeout := t, retry_count := rc
          retry_backoff := b
          resolver_names := "cloudflare-doh(fallback)" }) := by
  refine ⟨fun h1 => ?_, fun h1 h2 => ?_, fun h1 h2 h3 => ?_,
    fun h1 h2 h3 => ?_⟩ <;>
    simp [with_resolvers, dohSelect, h1, *]

/-- Witness instantiating C5 at the quad9 provider URL. -/
theorem C5_witness :
    strContains "https://dns.quad9.net/dns-query" "cloudflare" = false ∧
    strContains "https://dns.quad9.net/dns-query" "google" = false ∧
    strContains "https://dns.quad9.net/dns-query" "quad9" = true ∧
    with_resolvers [] (fun _ => false) 5 3 100 true
        (some "https://dns.quad9.net/dns-query") = Except.ok
      { config := [quad9DoH], timeout := 5, retry_count := 3
        retry_backoff := 100, resolver_names := "quad9-doh" } := by
  refine ⟨by rfl, by rfl, by rfl, ?_⟩
  exact (C5_doh_selection [] (fun _ => false) 5 3 100
    "https://dns.quad9.net/dns-query").2.2.1 (by rfl) (by rfl) (by rfl)

/-- C6: for a configured rate limit `R > 0`, the dispatch loop derives the
interval `Δ = 1/R` seconds and each dispatched unit of work performs its
own sleep of that interval inside the per-item worker closure before
invoking the lookup (no shared global clock: one independent event
sequence per input IP). -/
theorem C6_rate_limit (R : Nat) (ips : List String) (hR : 0 < R) :
    rate_limit_interval R = 1 / (R : ℚ) ∧
    dispatchWorkers R ips = ips.map (fun ip =>
      [WorkerEvent.sleep (1 / (R : ℚ)), .doLookup ip, .incProgress]) := by
  constructor
  · simp [rate_limit_interval, hR]
  · simp [dispatchWorkers, workerEvents, rate_limit_interval, hR]

/-- Witness instantiating C6 at `R = 4` on a one-element IP list. -/
theorem C6_witness :
    0 < 4 ∧
    (rate_limit_interval 4 = 1 / ((4 : Nat) : ℚ) ∧
      dispatchWorkers 4 ["8.8.8.8"] = ["8.8.8.8"].map (fun ip =>
        [WorkerEvent.sleep (1 / ((4 : Nat) : ℚ)), .doLookup ip,
          .incProgress])) :=
  ⟨by decide, C6_rate_limit 4 ["8.8.8.8"] (by decide)⟩

/-- C7: the retry loop's event trace is an initial segment of per-attempt
blocks in which attempt `0` is issued with no preceding sleep and every
attempt `n > 0` is immediately preceded by a sleep of
`retry_backoff * n` (linear, not exponential backoff). -/
theorem C7_linear_backoff (res : DnsResolver) (trace : Nat → AttemptOutcome)
    (ip : String) :
    ∃ m, 1 ≤ m ∧ m ≤ res.retry_count + 1 ∧
      lookupEvents res trace ip true =
        ((List.range m).map (stepEvents res.retry_backoff)).flatten ∧
      ∀ n, stepEvents res.retry_backoff n =
        if n = 0 then [.attempt 0]
        else [.sleep (res.retry_backoff * n), .attempt n] := by
  obtain ⟨j, hj, hne, hev⟩ := runLoop_events_shape res.retry_backoff trace
    (List.range (res.retry_count + 1)) none
  have hj2 : j ≤ res.retry_count + 1 := by simpa using hj
  refine ⟨j, hne (by simp), hj2, ?_, fun n => rfl⟩
  rw [lookupEvents_true, hev, List.take_range, inf_eq_left.mpr hj2]

/-- C8: the JSON metadata of `format_json` satisfies
`total_lookups = results.length` and
`successful + failed = results.length`. -/
theorem C8_json_metadata (results : List LookupResult) (t : Nat)
    (now : String) :
    (format_json results t now).metadata.total_lookups =
      (format_json results t now).results.length ∧
    (format_json results t now).metadata.successful +
        (format_json results t now).metadata.failed =
      (format_json results t now).results.length := by
  have hle : (results.filter
      (fun r => r.status = LookupStatus.Success)).length ≤ results.length :=
    List.length_filter_le _ _
  constructor
  · simp [format_json]
  · simp only [format_json, List.length_map]
    omega

/-- The length of the collected dispatch results counts exactly the items
whose input parsed as an IP address. -/
theorem runDispatch_length (res : DnsResolver) :
    ∀ items : List DispatchItem,
      (runDispatch res items).length =
        (items.filter (fun it => it.ipParses)).length := by
  intro items
  induction items with
  | nil => rfl
  | cons it rest ih =>
    simp only [runDispatch, collectResults, List.map_cons,
      List.filterMap_cons, List.filter_cons] at *
    cases hp : it.ipParses with
    | false =>
      simp only [lookup, lookupRun, Bool.false_eq_true, if_false]
      simpa using ih
    | true =>
      obtain ⟨r, hr⟩ := lookup_true_ok res it.trace it.ip
      rw [hr]
      simpa using ih

/-- C9: `DnsResolver::lookup` returns `Err` exactly on unparseable input
(`InvalidIpAddress`); every lookup on a parseable IP returns `Ok` with a
`LookupResult`, so the items the dispatch loop drops are exactly the
unparseable inputs. -/
theorem C9_err_only_unparseable (res : DnsResolver)
    (trace : Nat → AttemptOutcome) (ip : String)
    (items : List DispatchItem) :
    (∃ r, lookup res trace ip true = Except.ok r) ∧
    lookup res trace ip false =
      Except.error (ReverDNSError.InvalidIpAddress ip) ∧
    (runDispatch res items).length =
      (items.filter (fun it => it.ipParses)).length :=
  ⟨lookup_true_ok res trace ip, rfl, runDispatch_length res items⟩

/-- C10: with DoH enabled, `DnsResolver::with_resolvers` never inspects the
supplied resolver IP list: the constructed value is the same for any list
and any parse behaviour, construction always succeeds, and the
configuration holds exactly the selected DoH server. -/
theorem C10_doh_ignores_ips (ips ips2 : List String)
    (parse parse2 : String → Bool) (t rc b : Nat) (prov : Option String) :
    with_resolvers ips parse t rc b true prov =
      with_resolvers ips2 parse2 t rc b true prov ∧
    ∃ r, with_resolvers ips parse t rc b true prov = Except.ok r ∧
      r.config =
        (dohSelect (prov.getD "https://cloudflare-dns.com/dns-query")).1 ∧
      r.config.length = 1 := by
  refine ⟨rfl, ?_⟩
  exact ⟨_, rfl, rfl, dohSelect_config_length _⟩

end ReverDNS
